import Mathlib

/-!
# FeralFlow: the feed controller of `script.js`

A shallow embedding of the pagination / fetch-state part of the class `E621Feed`
(`src/script.js`): the normalizing step and error classification of
`fetchE621Posts`, the controller methods `handleSearch`, `loadInitialPosts`,
`loadMorePosts` and `loadPosts`, and the session methods `saveAuth`, `logout`,
`authenticateUser`, `addToFavorites` and `removeFromFavorites`.

Modelling conventions.

* JavaScript values that come out of `JSON.parse` are values of `JSVal`; numbers are
  integers (ids, counters and scores are integers in the remote API).
* The builtins `JSON.parse`, `response.json()` and the messages of the `TypeError`s the
  engine raises are not code of the repository: they are taken as parameters
  (`Engine`, `RelayResponse`).
* An exception is a value `Except.error m` where `m` is the `message` of the thrown
  `Error`; the only thing the source ever inspects of an exception is its message.
* DOM helpers (`showLoading`, `hideLoading`, `renderPosts`, `renderNewPosts`, and the
  `innerHTML` update of `handleSearch`) do not touch the controller fields and are
  left out.
* Every request handed to the network is appended to the ghost field `sent`, so that
  "how many fetches were dispatched" is a statement about the state.
-/

namespace FeralFlow

/-! ## JavaScript values -/

/-- The JavaScript values that can be reached from a parsed JSON document, plus
`undefined` (the result of reading a missing property). -/
inductive JSVal where
  | undefined : JSVal
  | null : JSVal
  | bool (b : Bool) : JSVal
  | num (n : Int) : JSVal
  | str (s : String) : JSVal
  | arr (xs : List JSVal) : JSVal
  | obj (fields : List (String × JSVal)) : JSVal

namespace JSVal

/-- JavaScript truthiness (`ToBoolean`): `undefined`, `null`, `false`, `0` and `""`
are falsy, everything else (every array and object included) is truthy. -/
def truthy : JSVal → Bool
  | undefined => false
  | null => false
  | bool b => b
  | num n => n != 0
  | str s => s != ""
  | arr _ => true
  | obj _ => true

/-- The value is `null` or `undefined`. -/
def isNullish : JSVal → Bool
  | undefined => true
  | null => true
  | _ => false

/-- Property read `v.key` on a value that is neither `null` nor `undefined`, for the
property names used by the source (none of which is a builtin property of strings,
numbers, booleans or arrays): the field of an object when present, else `undefined`. -/
def get (v : JSVal) (key : String) : JSVal :=
  match v with
  | obj fields => (fields.lookup key).getD undefined
  | _ => undefined

/-- Optional chaining `v?.key`: `undefined` when `v` is `null` or `undefined`. -/
def getOpt (v : JSVal) (key : String) : JSVal :=
  if v.isNullish then undefined else v.get key

/-- The operator `a || d`. -/
def orElse (a d : JSVal) : JSVal :=
  if a.truthy then a else d

end JSVal

open JSVal

/-! ## Normalized posts -/

/-- The `file` object of a normalized post. -/
structure PostFile where
  url : JSVal
  ext : JSVal

/-- The `preview` object of a normalized post. -/
structure PostPreview where
  url : JSVal

/-- The `tags` object of a normalized post. -/
structure PostTags where
  general : JSVal
  species : JSVal
  character : JSVal
  artist : JSVal

/-- The `score` object of a normalized post. -/
structure PostScore where
  up : JSVal
  down : JSVal
  total : JSVal

/-- The object literal built by the `map` callback of `fetchE621Posts`. -/
structure Post where
  id : JSVal
  file : PostFile
  preview : PostPreview
  tags : PostTags
  score : PostScore
  fav_count : JSVal
  comment_count : JSVal
  created_at : JSVal
  rating : JSVal
  description : JSVal
  uploader_id : JSVal
  uploader_name : JSVal

/-- The parts of the JavaScript engine the fetch path relies on. -/
structure Engine where
  /-- The builtin `JSON.parse` applied to a value (its argument is first converted to a
  string by the engine); a failure carries the message of the `SyntaxError`. -/
  jsonParse : JSVal → Except String JSVal
  /-- Message of the `TypeError` raised by a property read on `null` or `undefined`. -/
  nullReadMsg : String
  /-- Message of the `TypeError` raised by calling something that is not a function. -/
  notFunctionMsg : String

/-- The body of the `map` callback (lines 322-349) on a record that is neither `null`
nor `undefined`. -/
def normalizeRecord (post : JSVal) : Post :=
  { id := post.get "id"
    file :=
      { url := (post.get "file").getOpt "url"
        ext := ((post.get "file").getOpt "ext").orElse (str "jpg") }
    preview := { url := (post.get "preview").getOpt "url" }
    tags :=
      { general := ((post.get "tags").getOpt "general").orElse (arr [])
        species := ((post.get "tags").getOpt "species").orElse (arr [])
        character := ((post.get "tags").getOpt "character").orElse (arr [])
        artist := ((post.get "tags").getOpt "artist").orElse (arr []) }
    score :=
      { up := ((post.get "score").getOpt "up").orElse (num 0)
        down := ((post.get "score").getOpt "down").orElse (num 0)
        total := ((post.get "score").getOpt "total").orElse (num 0) }
    fav_count := (post.get "fav_count").orElse (num 0)
    comment_count := (post.get "comment_count").orElse (num 0)
    created_at := post.get "created_at"
    rating := (post.get "rating").orElse (str "s")
    description := (post.get "description").orElse (str "")
    uploader_id := post.get "uploader_id"
    uploader_name := (post.get "uploader_name").orElse (str "Anonymous") }

/-- The `map` callback: reading `post.id` on `null` or `undefined` raises a
`TypeError`. -/
def mapRecord (eng : Engine) (post : JSVal) : Except String Post :=
  if post.isNullish then .error eng.nullReadMsg else .ok (normalizeRecord post)

/-- The call `posts.map(callback)` on an array: the callback runs on each element in
order and the first exception aborts the whole call. -/
def mapRecords (eng : Engine) : List JSVal → Except String (List Post)
  | [] => .ok []
  | r :: rs =>
    match mapRecord eng r with
    | .error m => .error m
    | .ok p =>
      match mapRecords eng rs with
      | .error m => .error m
      | .ok ps => .ok (p :: ps)

/-- The normalizing step `posts.map(...).filter((post) => post.file.url)` of
`fetchE621Posts` (lines 321-350) on the elements of the `posts` array. -/
def normalizePosts (eng : Engine) (raws : List JSVal) : Except String (List Post) :=
  match mapRecords eng raws with
  | .error m => .error m
  | .ok ps => .ok (ps.filter fun post => post.file.url.truthy)

/-! ## The relay response and `fetchE621Posts` -/

/-- What `await fetch(proxyUrl, ...)` and `await response.json()` produce. -/
inductive RelayResponse where
  /-- The promise returned by `fetch` rejects; `msg` is the message of the error. -/
  | networkError (msg : String) : RelayResponse
  /-- An HTTP response with its status and the outcome of `response.json()` (a failure
  carries the message of the `SyntaxError`). -/
  | http (status : Nat) (json : Except String JSVal) : RelayResponse

/-- The getter `response.ok`: the status is in the range 200-299. -/
def statusOk (status : Nat) : Bool :=
  decide (200 ≤ status) && decide (status ≤ 299)

/-- The characters `needle` are the first characters of `hay`. -/
def startsWithChars : List Char → List Char → Bool
  | _, [] => true
  | [], _ :: _ => false
  | c :: cs, d :: ds => (c == d) && startsWithChars cs ds

/-- The characters `needle` occur contiguously somewhere in `hay`. -/
def includesChars : List Char → List Char → Bool
  | [], needle => needle.isEmpty
  | c :: cs, needle => startsWithChars (c :: cs) needle || includesChars cs needle

/-- The method `String.prototype.includes`. -/
def includes (hay needle : String) : Bool :=
  includesChars hay.data needle.data

/-- Message thrown at line 308. -/
def httpErrorMessage (status : Nat) : String :=
  "HTTP error! status: " ++ toString status

/-- Message thrown at line 352. -/
def invalidFormatMessage : String := "Invalid API response format"

/-- Message thrown at line 358. -/
def connectivityMessage : String :=
  "Failed to connect to e621. Please check your internet connection."

/-- Message thrown at line 360. -/
def formatMessage : String := "Received invalid data from e621. Please try again."

/-- Message thrown at line 362. -/
def genericMessage : String := "Unable to load posts from e621. Please try again later."

/-- The `try` block of `fetchE621Posts` (lines 300-353), from the relay response on. -/
def fetchTry (eng : Engine) (resp : RelayResponse) : Except String (List Post) :=
  match resp with
  | .networkError m => .error m
  | .http status json =>
    if !statusOk status then .error (httpErrorMessage status)
    else
      match json with
      | .error m => .error m
      | .ok data =>
        if data.isNullish then .error eng.nullReadMsg
        else
          match eng.jsonParse (data.get "contents") with
          | .error m => .error m
          | .ok e621Data =>
            if e621Data.truthy && (e621Data.get "posts").truthy then
              match e621Data.get "posts" with
              | arr raws => normalizePosts eng raws
              | _ => .error eng.notFunctionMsg
            else .error invalidFormatMessage

/-- The `catch` block of `fetchE621Posts` (lines 354-364): every exception is replaced
by one of three messages, chosen by what the caught message contains. -/
def classify (message : String) : String :=
  if includes message "HTTP error" then connectivityMessage
  else if includes message "Invalid API response" then formatMessage
  else genericMessage

/-- The method `fetchE621Posts`, from the relay response on. -/
def fetchE621Posts (eng : Engine) (resp : RelayResponse) : Except String (List Post) :=
  match fetchTry eng resp with
  | .ok posts => .ok posts
  | .error m => .error (classify m)

/-! ## The controller state -/

/-- A request handed to the network. `getPosts tags limit page` is the query
`posts.json?tags=..&limit=..&page=..` sent through the relay. -/
inductive Request where
  | getPosts (tags : String) (limit : Nat) (page : Nat) : Request
  | postFavorite (postId : String) (username apiKey : Option String) : Request
  | deleteFavorite (postId : String) (username apiKey : Option String) : Request
  deriving DecidableEq, Repr

/-- The fields of an `E621Feed` instance that the controller logic reads or writes,
the persisted `e621_auth` record, and the ghost log `sent` of dispatched requests. -/
structure Feed where
  currentPage : Nat
  currentTags : String
  isLoading : Bool
  hasMorePosts : Bool
  posts : List Post
  isAuthenticated : Bool
  username : Option String
  apiKey : Option String
  /-- The `localStorage` entry `"e621_auth"`: the saved `(username, apiKey)`. -/
  savedAuth : Option (String × String)
  /-- Ghost: every request dispatched so far, oldest first. -/
  sent : List Request

/-- The field initialisers of the constructor (lines 3-14). -/
def fresh : Feed :=
  { currentPage := 1
    currentTags := ""
    isLoading := false
    hasMorePosts := true
    posts := []
    isAuthenticated := false
    username := none
    apiKey := none
    savedAuth := none
    sent := [] }

/-- The network seen by a sequential run: the response to the request that is
dispatched when `n` requests have been dispatched before it. -/
abbrev Network := Nat → Request → RelayResponse

/-- The expression `tags || "female"` on a string. -/
def orFemale (tags : String) : String :=
  if tags = "" then "female" else tags

/-- The request built by `fetchE621Posts(tags, page)` (lines 288-293). -/
def mkRequest (tags : String) (page : Nat) : Request :=
  .getPosts (orFemale tags) 20 page

/-- A call `await this.fetchE621Posts(tags, page)` in a sequential run: the request is
dispatched (logged) and the outcome is computed from the response of the network. -/
def callFetch (eng : Engine) (net : Network) (tags : String) (page : Nat) (s : Feed) :
    Feed × Except String (List Post) :=
  ({ s with sent := s.sent ++ [mkRequest tags page] },
    fetchE621Posts eng (net s.sent.length (mkRequest tags page)))

/-- A statement `try { body } catch (error) { handler } finally { cleanup }` on the
controller state: `body` and `handler` may raise, the cleanup always runs. -/
def tryCatchFinally (body : Feed → Feed × Except String Unit)
    (handler : String → Feed → Feed × Except String Unit) (cleanup : Feed → Feed)
    (s : Feed) : Feed × Except String Unit :=
  match body s with
  | (s1, .ok _) => (cleanup s1, .ok ())
  | (s1, .error m) =>
    match handler m s1 with
    | (s2, r) => (cleanup s2, r)

/-- The `try` block of `loadPosts` (lines 244-278). -/
def loadPostsTry (eng : Engine) (net : Network) (s : Feed) : Feed × Except String Unit :=
  let tagsToUse := orFemale s.currentTags
  match callFetch eng net tagsToUse s.currentPage s with
  | (s1, .error m) => (s1, .error m)
  | (s1, .ok posts) =>
    if posts.length = 0 then
      if s1.currentPage > 1 then
        match callFetch eng net tagsToUse 1 { s1 with currentPage := 1 } with
        | (s2, .error m) => (s2, .error m)
        | (s2, .ok resetPosts) =>
          if resetPosts.length > 0 then
            ({ s2 with posts := s2.posts ++ resetPosts }, .ok ())
          else (s2, .ok ())
      else (s1, .ok ())
    else
      if s1.currentPage = 1 ∧ s1.posts.length = 0 then
        ({ s1 with posts := posts }, .ok ())
      else
        ({ s1 with posts := s1.posts ++ posts }, .ok ())

/-- The method `loadPosts` (lines 237-285) run to completion. The `catch` block only
logs, the `finally` block clears `isLoading`. -/
def loadPosts (eng : Engine) (net : Network) (s : Feed) : Feed × Except String Unit :=
  if s.isLoading then (s, .ok ())
  else
    tryCatchFinally (loadPostsTry eng net) (fun _ s1 => (s1, .ok ()))
      (fun s1 => { s1 with isLoading := false }) { s with isLoading := true }

/-- The characters removed by `String.prototype.trim`: the white space and line
terminator code points of ECMAScript. -/
def isTrimmed (c : Char) : Bool :=
  let n := c.toNat
  n == 0x09 || n == 0x0A || n == 0x0B || n == 0x0C || n == 0x0D || n == 0x20 ||
  n == 0xA0 || n == 0x1680 || (decide (0x2000 ≤ n) && decide (n ≤ 0x200A)) ||
  n == 0x2028 || n == 0x2029 || n == 0x202F || n == 0x205F || n == 0x3000 ||
  n == 0xFEFF

/-- The method `String.prototype.trim`. -/
def jsTrim (value : String) : String :=
  String.mk ((value.data.dropWhile isTrimmed).reverse.dropWhile isTrimmed).reverse

/-- The method `handleSearch` (lines 190-211) run to completion; `value` is
`searchInput.value`. -/
def handleSearch (eng : Engine) (net : Network) (value : String) (s : Feed) :
    Feed × Except String Unit :=
  let tags := jsTrim value
  if tags = s.currentTags then (s, .ok ())
  else
    loadPosts eng net
      { s with
        currentTags := tags
        posts := []
        currentPage := 1
        isLoading := false
        hasMorePosts := true }

/-- The method `loadInitialPosts` (lines 213-217) run to completion. -/
def loadInitialPosts (eng : Engine) (net : Network) (s : Feed) : Feed × Except String Unit :=
  loadPosts eng net { s with currentTags := "female", currentPage := 1 }

/-- The method `loadMorePosts` (lines 219-235) run to completion. -/
def loadMorePosts (eng : Engine) (net : Network) (s : Feed) : Feed × Except String Unit :=
  if s.isLoading then (s, .ok ())
  else
    let s1 := if s.currentTags = "" then { s with currentTags := "female" } else s
    loadPosts eng net { s1 with currentPage := s1.currentPage + 1 }

/-! ## Interleaved executions

`loadPosts` is an `async` method: it runs synchronously up to an `await` on
`fetchE621Posts`, and is resumed when that fetch settles. Other event handlers can run
while it is suspended. `fetchE621Posts` dispatches its request synchronously when it
is called and touches no controller field, so a suspended `loadPosts` is described by
the `await` it is parked at. -/

/-- A `loadPosts` execution suspended at an `await`; `tagsToUse` is its local
constant. -/
inductive Pending where
  /-- Parked at line 249, waiting for the page `this.currentPage`. -/
  | page (tagsToUse : String) : Pending
  /-- Parked at line 259, waiting for the re-fetch of page 1. -/
  | wrap (tagsToUse : String) : Pending
  deriving DecidableEq, Repr

/-- The `catch` block (which only logs) followed by the `finally` block of
`loadPosts`. -/
def finish (s : Feed) : Feed :=
  { s with isLoading := false }

/-- The synchronous prefix of `loadPosts` (lines 238-249): either the guard returns, or
the flag is set, the request for the current page is dispatched and the execution
parks. -/
def loadPostsEnter (s : Feed) : Feed × Option Pending :=
  if s.isLoading then (s, none)
  else
    ({ s with
        isLoading := true
        sent := s.sent ++ [mkRequest (orFemale s.currentTags) s.currentPage] },
      some (.page (orFemale s.currentTags)))

/-- A parked `loadPosts` execution is resumed with the response to its request: it runs
to its next `await` (the wraparound re-fetch) or to the end of its `finally` block. -/
def loadPostsResume (eng : Engine) (p : Pending) (resp : RelayResponse) (s : Feed) :
    Feed × Option Pending :=
  match p with
  | .page tagsToUse =>
    match fetchE621Posts eng resp with
    | .error _ => (finish s, none)
    | .ok posts =>
      if posts.length = 0 then
        if s.currentPage > 1 then
          ({ s with currentPage := 1, sent := s.sent ++ [mkRequest tagsToUse 1] },
            some (.wrap tagsToUse))
        else (finish s, none)
      else
        if s.currentPage = 1 ∧ s.posts.length = 0 then
          (finish { s with posts := posts }, none)
        else
          (finish { s with posts := s.posts ++ posts }, none)
  | .wrap _ =>
    match fetchE621Posts eng resp with
    | .error _ => (finish s, none)
    | .ok resetPosts =>
      if resetPosts.length > 0 then
        (finish { s with posts := s.posts ++ resetPosts }, none)
      else (finish s, none)

/-- The controller together with the `loadPosts` executions that have passed their
entry (`isLoading = true`) and not yet run their cleanup. -/
structure Sys where
  feed : Feed
  inflight : List Pending

/-- What can happen to the controller: a search submit with the content of the input
box, the scroll trigger firing, and the fetch of the `i`-th suspended execution
settling with a response. -/
inductive Event where
  | search (value : String) : Event
  | scroll : Event
  | complete (i : Nat) (resp : RelayResponse) : Event

/-- The system after a handler has run its synchronous prefix: a parked execution, if
any, joins the suspended ones. -/
def spawn (r : Feed × Option Pending) (inflight : List Pending) : Sys :=
  { feed := r.1, inflight := inflight ++ r.2.toList }

/-- One event. `search` is `handleSearch` up to its `await`, `scroll` is the observer
callback (line 176) calling `loadMorePosts` up to its `await`, `complete` resumes a
suspended execution. -/
def Sys.step (eng : Engine) (σ : Sys) : Event → Sys
  | .search value =>
    if jsTrim value = σ.feed.currentTags then σ
    else
      spawn
        (loadPostsEnter
          { σ.feed with
            currentTags := jsTrim value
            posts := []
            currentPage := 1
            isLoading := false
            hasMorePosts := true })
        σ.inflight
  | .scroll =>
    if σ.feed.isLoading then σ
    else
      let s1 := if σ.feed.currentTags = "" then { σ.feed with currentTags := "female" }
        else σ.feed
      spawn (loadPostsEnter { s1 with currentPage := s1.currentPage + 1 }) σ.inflight
  | .complete i resp =>
    match σ.inflight.get? i with
    | none => σ
    | some p =>
      match loadPostsResume eng p resp σ.feed with
      | (s, none) => { feed := s, inflight := σ.inflight.eraseIdx i }
      | (s, some q) => { feed := s, inflight := σ.inflight.set i q }

/-- A sequence of events, oldest first. -/
def Sys.run (eng : Engine) (σ : Sys) : List Event → Sys
  | [] => σ
  | e :: es => Sys.run eng (σ.step eng e) es

/-- The system right after `new E621Feed()`: the constructor calls `init`, which calls
`loadInitialPosts` without awaiting it, so the first load is suspended on its fetch. -/
def boot : Sys :=
  spawn (loadPostsEnter { fresh with currentTags := "female", currentPage := 1 }) []

/-- A state is reachable when some sequence of events leads to it from `boot`. -/
def Reachable (eng : Engine) (σ : Sys) : Prop :=
  ∃ events, Sys.run eng boot events = σ

/-- An event respects the lock when it is not a search submit arriving while a load is
suspended. -/
def Event.calm (σ : Sys) : Event → Bool
  | .search _ => σ.inflight.isEmpty
  | _ => true

/-- Every event of the sequence respects the lock at the moment it occurs. -/
def Sys.calmRun (eng : Engine) (σ : Sys) : List Event → Bool
  | [] => true
  | e :: es => e.calm σ && Sys.calmRun eng (σ.step eng e) es

/-! ## Sample data

Concrete records, payloads and networks on which the statements below are evaluated. -/

/-- A raw record with an id and a media URL and nothing else. -/
def rawOf (id : Int) (url : String) : JSVal :=
  obj [("id", num id), ("file", obj [("url", str url)])]

/-- Raw record `A`. -/
def rawA : JSVal := rawOf 1 "https://static1.e621.net/a.png"

/-- Raw record `B`. -/
def rawB : JSVal := rawOf 2 "https://static1.e621.net/b.png"

/-- Raw record `C`. -/
def rawC : JSVal := rawOf 3 "https://static1.e621.net/c.png"

/-- Raw record `D`. -/
def rawD : JSVal := rawOf 4 "https://static1.e621.net/d.png"

/-- Normalized post `A`. -/
def postA : Post := normalizeRecord rawA

/-- Normalized post `B`. -/
def postB : Post := normalizeRecord rawB

/-- Normalized post `C`. -/
def postC : Post := normalizeRecord rawC

/-- Normalized post `D`. -/
def postD : Post := normalizeRecord rawD

/-- The JSON text of a payload with no posts. -/
def textNone : String := "\x7b\"posts\":[]\x7d"

/-- The JSON text of a payload holding the records `A` and `B` (abridged to a name:
the sample engine below decodes it to `rawA`, `rawB`). -/
def textAB : String := "\x7b\"posts\":[A,B]\x7d"

/-- The JSON text of a payload holding the records `C` and `D` (abridged likewise). -/
def textCD : String := "\x7b\"posts\":[C,D]\x7d"

/-- An engine whose `JSON.parse` decodes the three sample payloads and the literals
`null`, numbers and booleans, and rejects every other argument. -/
def sampleEngine : Engine :=
  { jsonParse := fun v =>
      match v with
      | .str t =>
        if t = textNone then .ok (obj [("posts", arr [])])
        else if t = textAB then .ok (obj [("posts", arr [rawA, rawB])])
        else if t = textCD then .ok (obj [("posts", arr [rawC, rawD])])
        else if t = "null" then .ok null
        else .error "Unexpected token in JSON"
      | .num n => .ok (num n)
      | .bool b => .ok (bool b)
      | .null => .ok null
      | _ => .error "Unexpected token in JSON"
    nullReadMsg := "Cannot read properties of null"
    notFunctionMsg := "posts.map is not a function" }

/-- A relay response with status 200 whose envelope wraps the given text. -/
def relayOk (contents : String) : RelayResponse :=
  .http 200 (.ok (obj [("contents", str contents)]))

/-- A controller in the middle of a feed: page 2 of `female`, with `A`, `B` loaded. -/
def feedAtPage2 : Feed :=
  { fresh with currentPage := 2, currentTags := "female", posts := [postA, postB] }

/-- A network whose first response is an empty page and whose later responses hold
`A`, `B`. -/
def netWrap : Network :=
  fun n _ => if n = 0 then relayOk textNone else relayOk textAB

/-- A network whose first response holds `A`, `B` and whose later responses hold
`C`, `D`. -/
def netFeed : Network :=
  fun n _ => if n = 0 then relayOk textAB else relayOk textCD

/-- A network whose first response is an empty page and whose later responses are
HTTP 500. -/
def netWrapFail : Network :=
  fun n _ => if n = 0 then relayOk textNone else .http 500 (.error "Unexpected token")

/-- A network that answers every request with HTTP 500. -/
def netDown : Network :=
  fun _ _ => .http 500 (.error "Unexpected token")

/-! ## The session and the favorites calls

`localStorage` and the DOM helpers (`alert`, `showFeed`) are taken not to raise. The
favorites calls only read `response.ok` and `response.status`, so the network of the
feed (`Network`) serves for them too. -/

/-- The method `saveAuth` (lines 42-47). -/
def saveAuth (username apiKey : String) (s : Feed) : Feed :=
  { s with
    username := some username
    apiKey := some apiKey
    isAuthenticated := true
    savedAuth := some (username, apiKey) }

/-- The method `logout` (lines 49-55). -/
def logout (s : Feed) : Feed :=
  { s with
    username := none
    apiKey := none
    isAuthenticated := false
    savedAuth := none }

/-- The property `length` of a JavaScript string: the number of UTF-16 code units. -/
def jsLength (text : String) : Nat :=
  (text.data.map fun c => if c.toNat < 0x10000 then 1 else 2).sum

/-- The method `authenticateUser` (lines 57-73) on the two strings read from the login
form. It returns the new state and the boolean it resolves to. -/
def authenticateUser (username apiKey : String) (s : Feed) : Feed × Bool :=
  if username = "" ∨ apiKey = "" ∨ jsTrim username = "" ∨ jsTrim apiKey = "" then
    (s, false)
  else if jsLength apiKey < 20 then (s, false)
  else (saveAuth (jsTrim username) (jsTrim apiKey) s, true)

/-- The string `this.username + ":" + this.apiKey`; a field that is `null` is printed
as `null`. -/
def credentials (s : Feed) : String :=
  s.username.getD "null" ++ ":" ++ s.apiKey.getD "null"

/-- The builtin `btoa` raises on a string with a character above U+00FF. -/
def btoaRaises (text : String) : Bool :=
  text.data.any fun c => decide (255 < c.toNat)

/-- The method `addToFavorites` (lines 75-108). It returns the new state and the
boolean it resolves to. Building the `Authorization` header comes before the call of
`fetch`: when `btoa` raises, the `catch` block runs and nothing is dispatched. -/
def addToFavorites (net : Network) (postId : String) (s : Feed) : Feed × Bool :=
  if !s.isAuthenticated then (s, false)
  else if btoaRaises (credentials s) then (s, true)
  else
    match net s.sent.length (.postFavorite postId s.username s.apiKey) with
    | .networkError _ =>
      ({ s with sent := s.sent ++ [.postFavorite postId s.username s.apiKey] }, true)
    | .http status _ =>
      if statusOk status then
        ({ s with sent := s.sent ++ [.postFavorite postId s.username s.apiKey] }, true)
      else if status = 401 then
        (logout { s with sent := s.sent ++ [.postFavorite postId s.username s.apiKey] },
          false)
      else
        ({ s with sent := s.sent ++ [.postFavorite postId s.username s.apiKey] }, false)

/-- The method `removeFromFavorites` (lines 110-143). -/
def removeFromFavorites (net : Network) (postId : String) (s : Feed) : Feed × Bool :=
  if !s.isAuthenticated then (s, false)
  else if btoaRaises (credentials s) then (s, true)
  else
    match net s.sent.length (.deleteFavorite postId s.username s.apiKey) with
    | .networkError _ =>
      ({ s with sent := s.sent ++ [.deleteFavorite postId s.username s.apiKey] }, true)
    | .http status _ =>
      if statusOk status then
        ({ s with sent := s.sent ++ [.deleteFavorite postId s.username s.apiKey] }, true)
      else if status = 401 then
        (logout { s with sent := s.sent ++ [.deleteFavorite postId s.username s.apiKey] },
          false)
      else if status = 404 then
        ({ s with sent := s.sent ++ [.deleteFavorite postId s.username s.apiKey] }, true)
      else
        ({ s with sent := s.sent ++ [.deleteFavorite postId s.username s.apiKey] }, false)

/-- A controller whose user is logged in. -/
def feedLoggedIn : Feed :=
  saveAuth "fox" "0123456789abcdefghij" fresh

/-- A network that answers every request with the given HTTP status. -/
def netStatus (status : Nat) : Network :=
  fun _ _ => .http status (.error "Unexpected token")

/-- A network on which every request fails before a response is obtained. -/
def netUnreachable : Network :=
  fun _ _ => .networkError "Failed to fetch"

/-! ## Predicates on raw records -/

/-- The expression `post.file?.url` on a raw record. -/
def fileUrl (r : JSVal) : JSVal :=
  (r.get "file").getOpt "url"

/-- The raw record has a `file.url` that is present and non-empty: a string other
than `""`. -/
def hasMediaUrl (r : JSVal) : Bool :=
  match fileUrl r with
  | .str u => u != ""
  | _ => false

/-- The `file.url` of the raw record has the type it has in the remote API: it is
absent, `null`, or a string. -/
def urlIsText (r : JSVal) : Bool :=
  match fileUrl r with
  | .undefined => true
  | .null => true
  | .str _ => true
  | _ => false

/-- The property is absent from the record. -/
def absent (r : JSVal) (key : String) : Bool :=
  match r.get key with
  | .undefined => true
  | _ => false

/-- A record with a valid `file.url` whose `tags`, `score` and `preview` objects are
absent or `null` and whose `fav_count`, `comment_count`, `rating`, `description` and
`uploader_name` are absent. -/
def isSparse (r : JSVal) : Bool :=
  hasMediaUrl r && (r.get "tags").isNullish && (r.get "score").isNullish &&
    (r.get "preview").isNullish && absent r "fav_count" && absent r "comment_count" &&
    absent r "rating" && absent r "description" && absent r "uploader_name"

/-- A raw record without a `file` object. -/
def rawNoFile : JSVal := obj [("id", num 7)]

/-- A raw record whose `file.url` is `null` (a post hidden from anonymous users). -/
def rawNullUrl : JSVal := obj [("id", num 8), ("file", obj [("url", null)])]

/-- A raw record with a media URL and the extension `png`, and nothing else. -/
def rawPng : JSVal :=
  obj [("id", num 9),
    ("file", obj [("url", str "https://static1.e621.net/e.png"), ("ext", str "png")])]

/-- The lock discipline: either the flag is clear and nothing is suspended, or the flag
is set and exactly one `loadPosts` execution is suspended. -/
def Sys.Locked (σ : Sys) : Prop :=
  (σ.feed.isLoading = false ∧ σ.inflight = []) ∨
    (σ.feed.isLoading = true ∧ ∃ p, σ.inflight = [p])

/-! ## Basic facts about `loadPosts` -/

/-- The six ways a `loadPosts` execution that passes the guard can go, by the outcomes
of its fetches: the state it ends in. -/
theorem loadPosts_cases (eng : Engine) (net : Network) (s : Feed)
    (hidle : s.isLoading = false) :
    loadPosts eng net s =
      (match fetchE621Posts eng
          (net s.sent.length (mkRequest (orFemale s.currentTags) s.currentPage)) with
        | .error _ =>
          { s with sent := s.sent ++ [mkRequest (orFemale s.currentTags) s.currentPage] }
        | .ok [] =>
          if s.currentPage > 1 then
            match fetchE621Posts eng
                (net (s.sent.length + 1) (mkRequest (orFemale s.currentTags) 1)) with
            | .error _ =>
              { s with
                currentPage := 1
                sent := s.sent ++ [mkRequest (orFemale s.currentTags) s.currentPage,
                  mkRequest (orFemale s.currentTags) 1] }
            | .ok R =>
              { s with
                currentPage := 1
                posts := s.posts ++ R
                sent := s.sent ++ [mkRequest (orFemale s.currentTags) s.currentPage,
                  mkRequest (orFemale s.currentTags) 1] }
          else
            { s with sent := s.sent ++ [mkRequest (orFemale s.currentTags) s.currentPage] }
        | .ok (p :: ps) =>
          { s with
            posts := if s.currentPage = 1 ∧ s.posts.length = 0 then p :: ps
              else s.posts ++ p :: ps
            sent := s.sent ++ [mkRequest (orFemale s.currentTags) s.currentPage] },
        .ok ()) := by
  simp only [loadPosts, hidle, tryCatchFinally, loadPostsTry, callFetch]
  cases h1 : fetchE621Posts eng
      (net s.sent.length (mkRequest (orFemale s.currentTags) s.currentPage)) with
  | error m => simp [hidle]
  | ok posts =>
    cases posts with
    | nil =>
      by_cases hc : s.currentPage > 1
      · cases h2 : fetchE621Posts eng
            (net (s.sent.length + 1) (mkRequest (orFemale s.currentTags) 1)) with
        | error m => simp [hc, h2, hidle]
        | ok R => cases R <;> simp [hc, h2, hidle]
      · simp [hc, hidle]
    | cons p ps =>
      by_cases hc : s.currentPage = 1 ∧ s.posts.length = 0
      · simp only [if_pos hc]
        simp [hidle]
      · simp only [if_neg hc]
        simp [hidle]


/-- The method `loadPosts` never changes the tag query. -/
theorem loadPosts_currentTags (eng : Engine) (net : Network) (s : Feed) :
    (loadPosts eng net s).1.currentTags = s.currentTags := by
  cases hl : s.isLoading
  · rw [loadPosts_cases eng net s hl]
    dsimp only
    split
    · rfl
    · split
      · split <;> rfl
      · rfl
    · rfl
  · simp [loadPosts, hl]

/-- Sequential and interleaved runs agree: `loadPosts` run to completion is its
synchronous prefix followed by one or two resumptions with the responses of the
network. -/
theorem loadPosts_eq_resume (eng : Engine) (net : Network) (s : Feed) :
    (loadPosts eng net s).1 =
      match loadPostsEnter s with
      | (s1, none) => s1
      | (s1, some p) =>
        match loadPostsResume eng p
            (net s.sent.length (mkRequest (orFemale s.currentTags) s.currentPage)) s1 with
        | (s2, none) => s2
        | (s2, some q) =>
          (loadPostsResume eng q
            (net (s.sent.length + 1) (mkRequest (orFemale s.currentTags) 1)) s2).1 := by
  cases hl : s.isLoading
  · rw [loadPosts_cases eng net s hl]
    simp only [loadPostsEnter, hl, Bool.false_eq_true, if_false, loadPostsResume, finish]
    cases fetchE621Posts eng
        (net s.sent.length (mkRequest (orFemale s.currentTags) s.currentPage)) with
    | error m => simp [hl]
    | ok posts =>
      cases posts with
      | nil =>
        by_cases hc : s.currentPage > 1
        · simp only [List.length_nil, if_true, if_pos hc]
          cases fetchE621Posts eng
              (net (s.sent.length + 1) (mkRequest (orFemale s.currentTags) 1)) with
          | error m => simp [hl]
          | ok R => cases R <;> simp [hl]
        · simp [hc, hl]
      | cons p ps =>
        by_cases hc : s.currentPage = 1 ∧ s.posts.length = 0
        · simp only [if_pos hc]
          simp [hl]
        · simp only [if_neg hc]
          simp [hl]
  · simp [loadPosts, loadPostsEnter, hl]

/-! ## The claims -/

/-- C1 (wraparound). From a state that is not loading and whose cursor is past page 1,
when the fetch of the current page succeeds with an empty list and the re-fetch of page
1 that follows succeeds with `R`, `loadPosts` ends with the cursor at 1 and with `R`
appended to the old posts, whatever `R` holds (so the posts are unchanged when `R` is
empty). -/
theorem loadPosts_wraparound (eng : Engine) (net : Network) (s : Feed) (R : List Post)
    (hidle : s.isLoading = false) (hpage : s.currentPage > 1)
    (hfirst : fetchE621Posts eng
      (net s.sent.length (mkRequest (orFemale s.currentTags) s.currentPage)) = .ok [])
    (hreset : fetchE621Posts eng
      (net (s.sent.length + 1) (mkRequest (orFemale s.currentTags) 1)) = .ok R) :
    (loadPosts eng net s).1.currentPage = 1 ∧
      (loadPosts eng net s).1.posts = s.posts ++ R ∧
      (R = [] → (loadPosts eng net s).1.posts = s.posts) := by
  rw [loadPosts_cases eng net s hidle, hfirst]
  simp only [if_pos hpage, hreset]
  refine ⟨trivial, trivial, ?_⟩
  intro hR
  simp [hR]

/-- Witness of C1: page 2 is empty, page 1 returns `A`, `B`, which are already loaded;
they are appended a second time and the cursor is back at 1. -/
theorem loadPosts_wraparound_witness :
    (loadPosts sampleEngine netWrap feedAtPage2).1.currentPage = 1 ∧
      (loadPosts sampleEngine netWrap feedAtPage2).1.posts
        = [postA, postB] ++ [postA, postB] :=
  have h := loadPosts_wraparound sampleEngine netWrap feedAtPage2 [postA, postB]
    rfl (by decide) rfl rfl
  ⟨h.1, h.2.1⟩

/-- C2 (merge correctness). A load that is not blocked by the flag and whose fetch
returns a non-empty page `P` leaves `posts = P` when the cursor is 1 and no post was
loaded, and `posts = old posts ++ P` otherwise. In particular, from a fresh controller,
`loadInitialPosts` with page 1 returning `[A, B]` followed by `loadMorePosts` with
page 2 returning `[C, D]` ends with `posts = [A, B, C, D]` and `currentPage = 2`. -/
theorem loadPosts_merge (eng : Engine) (net : Network) :
    (∀ (s : Feed) (P : List Post), s.isLoading = false → P ≠ [] →
      fetchE621Posts eng
        (net s.sent.length (mkRequest (orFemale s.currentTags) s.currentPage)) = .ok P →
      (s.currentPage = 1 ∧ s.posts = [] → (loadPosts eng net s).1.posts = P) ∧
      (¬ (s.currentPage = 1 ∧ s.posts = []) →
        (loadPosts eng net s).1.posts = s.posts ++ P)) ∧
    (∀ A B C D : Post,
      fetchE621Posts eng (net 0 (mkRequest "female" 1)) = .ok [A, B] →
      fetchE621Posts eng (net 1 (mkRequest "female" 2)) = .ok [C, D] →
      (loadMorePosts eng net (loadInitialPosts eng net fresh).1).1.posts = [A, B, C, D] ∧
      (loadMorePosts eng net (loadInitialPosts eng net fresh).1).1.currentPage = 2) := by
  constructor
  · intro s P hidle hne hfetch
    rw [loadPosts_cases eng net s hidle, hfetch]
    cases P with
    | nil => exact absurd rfl hne
    | cons p ps =>
      constructor
      · intro hc
        have hc2 : s.currentPage = 1 ∧ s.posts.length = 0 :=
          ⟨hc.1, List.length_eq_zero.mpr hc.2⟩
        simp only [if_pos hc2]
      · intro hc
        have hc2 : ¬ (s.currentPage = 1 ∧ s.posts.length = 0) := fun h =>
          hc ⟨h.1, List.length_eq_zero.mp h.2⟩
        simp only [if_neg hc2]
  · intro A B C D h1 h2
    have e1 : (loadInitialPosts eng net fresh).1 =
        { fresh with
          currentTags := "female"
          posts := [A, B]
          sent := [mkRequest "female" 1] } := by
      unfold loadInitialPosts
      rw [loadPosts_cases eng net _ rfl]
      have h1 : fetchE621Posts eng (net 0 (mkRequest (orFemale "female") 1)) = .ok [A, B] := h1
      simp [fresh, h1]
      rfl
    rw [e1]
    unfold loadMorePosts
    have h2 : fetchE621Posts eng (net 1 (mkRequest (orFemale "female") 2)) = .ok [C, D] := h2
    simp only [fresh]
    rw [if_neg (by simp), if_neg (by decide)]
    rw [loadPosts_cases eng net _ rfl]
    simp [h2]

/-- Witness of C2 on the sample network: pages `[A, B]` and `[C, D]`. -/
theorem loadPosts_merge_witness :
    (loadPosts sampleEngine netFeed feedAtPage2).1.posts
        = [postA, postB] ++ [postA, postB] ∧
      (loadMorePosts sampleEngine netFeed
          (loadInitialPosts sampleEngine netFeed fresh).1).1.posts
        = [postA, postB, postC, postD] ∧
      (loadMorePosts sampleEngine netFeed
          (loadInitialPosts sampleEngine netFeed fresh).1).1.currentPage = 2 :=
  have h := loadPosts_merge sampleEngine netFeed
  ⟨(h.1 feedAtPage2 [postA, postB] rfl (by simp) rfl).2 (fun hc => absurd hc.1 (by decide)),
    h.2 postA postB postC postD rfl rfl⟩

/-- A resumed execution either finishes, clearing the flag, or parks again, leaving the
flag as it was. -/
theorem loadPostsResume_flag (eng : Engine) (p : Pending) (resp : RelayResponse)
    (s : Feed) :
    ((loadPostsResume eng p resp s).2 = none ∧
        (loadPostsResume eng p resp s).1.isLoading = false) ∨
      ((∃ q, (loadPostsResume eng p resp s).2 = some q) ∧
        (loadPostsResume eng p resp s).1.isLoading = s.isLoading) := by
  cases p with
  | page t =>
    unfold loadPostsResume
    cases fetchE621Posts eng resp with
    | error m => simp [finish]
    | ok posts => dsimp only; split_ifs <;> simp [finish]
  | wrap t =>
    unfold loadPostsResume
    cases fetchE621Posts eng resp with
    | error m => simp [finish]
    | ok resetPosts => dsimp only; split_ifs <;> simp [finish]

/-- Entering `loadPosts` with the flag clear sets the flag and parks one execution. -/
theorem loadPostsEnter_idle (s : Feed) (hidle : s.isLoading = false) :
    (loadPostsEnter s).1.isLoading = true ∧ ∃ p, (loadPostsEnter s).2 = some p := by
  simp [loadPostsEnter, hidle]

/-- A handler that enters `loadPosts` with the flag clear while nothing is suspended
leaves the system with the flag set and one suspended execution. -/
theorem locked_spawn (s : Feed) (hidle : s.isLoading = false) :
    (spawn (loadPostsEnter s) []).Locked := by
  obtain ⟨h1, p, h2⟩ := loadPostsEnter_idle s hidle
  exact Or.inr ⟨h1, p, by simp [spawn, h2]⟩

/-- The lock discipline survives every event that respects the lock. -/
theorem locked_step (eng : Engine) (σ : Sys) (e : Event) (hinv : σ.Locked)
    (hcalm : e.calm σ = true) : (σ.step eng e).Locked := by
  cases e with
  | search value =>
    have hempty : σ.inflight = [] := by
      simpa [Event.calm, List.isEmpty_iff] using hcalm
    simp only [Sys.step]
    by_cases ht : jsTrim value = σ.feed.currentTags
    · simpa only [if_pos ht] using hinv
    · simp only [if_neg ht]
      rw [hempty]
      exact locked_spawn _ rfl
  | scroll =>
    simp only [Sys.step]
    by_cases hl : σ.feed.isLoading = true
    · simpa only [if_pos hl] using hinv
    · have hidle : σ.feed.isLoading = false := by simpa using hl
      have hempty : σ.inflight = [] := by
        rcases hinv with h | h
        · exact h.2
        · exact absurd h.1 hl
      simp only [if_neg hl]
      rw [hempty]
      apply locked_spawn
      by_cases ht : σ.feed.currentTags = ""
      · simp only [if_pos ht]
        exact hidle
      · simp only [if_neg ht]
        exact hidle
  | complete i resp =>
    simp only [Sys.step]
    rcases hinv with h | ⟨hl, p, hp⟩
    · simp only [h.2, List.get?_nil]
      exact Or.inl ⟨h.1, h.2⟩
    · cases i with
      | zero =>
        simp only [hp, List.get?_cons_zero]
        rcases hr : loadPostsResume eng p resp σ.feed with ⟨s1, o⟩
        have hflag := loadPostsResume_flag eng p resp σ.feed
        rw [hr] at hflag
        rcases hflag with ⟨h2, h1⟩ | ⟨⟨q, h2⟩, h1⟩
        · simp only at h1 h2
          subst h2
          exact Or.inl ⟨h1, by simp⟩
        · simp only at h1 h2
          subst h2
          exact Or.inr ⟨h1.trans hl, q, by simp⟩
      | succ j =>
        simp only [hp, List.get?_cons_succ, List.get?_nil]
        exact Or.inr ⟨hl, p, hp⟩

/-- The lock discipline holds after every sequence of events that respect the lock. -/
theorem locked_run (eng : Engine) (events : List Event) :
    ∀ σ : Sys, σ.Locked → Sys.calmRun eng σ events = true →
      (Sys.run eng σ events).Locked := by
  induction events with
  | nil => intro σ h _; exact h
  | cons e es ih =>
    intro σ h hc
    simp only [Sys.calmRun, Bool.and_eq_true] at hc
    exact ih (σ.step eng e) (locked_step eng σ e h hc.1) hc.2

/-- The system right after construction obeys the lock discipline. -/
theorem locked_boot : boot.Locked :=
  Or.inr ⟨rfl, _, rfl⟩

/-- C3, counterexample. A search submit with new tags arriving while the initial load
is suspended on its fetch clears the flag and enters `loadPosts` again: two executions
are between entry and cleanup in a reachable state. -/
theorem search_starts_second_load :
    Reachable sampleEngine (Sys.run sampleEngine boot [.search "cat"]) ∧
      (Sys.run sampleEngine boot [.search "cat"]).inflight
        = [.page "female", .page "cat"] ∧
      ¬ (∀ σ, Reachable sampleEngine σ → σ.inflight.length ≤ 1) := by
  refine ⟨⟨_, rfl⟩, rfl, ?_⟩
  intro h
  exact absurd (h _ ⟨[.search "cat"], rfl⟩) (by decide)

/-- C3, amended. In every state reached from construction by scroll triggers, fetch
completions and search submits that arrive while no load is suspended, at most one
`loadPosts` execution is between its entry and its cleanup, and `isLoading` is true
exactly when there is one. -/
theorem single_inflight_without_search_during_load (eng : Engine) (events : List Event)
    (hcalm : Sys.calmRun eng boot events = true) :
    (Sys.run eng boot events).inflight.length ≤ 1 ∧
      ((Sys.run eng boot events).feed.isLoading = true ↔
        (Sys.run eng boot events).inflight.length = 1) := by
  rcases locked_run eng events boot locked_boot hcalm with ⟨h1, h2⟩ | ⟨h1, p, h2⟩
  · simp [h1, h2]
  · simp [h1, h2]

/-- Witness of the amended C3: the initial fetch returns `A`, `B`, the user scrolls,
scrolls again while page 2 is being fetched, and page 2 arrives empty. -/
theorem single_inflight_without_search_during_load_witness :
    (Sys.run sampleEngine boot
        [.complete 0 (relayOk textAB), .scroll, .scroll,
          .complete 0 (relayOk textNone)]).inflight.length ≤ 1 :=
  (single_inflight_without_search_during_load sampleEngine
    [.complete 0 (relayOk textAB), .scroll, .scroll, .complete 0 (relayOk textNone)]
    rfl).1

/-- C4, counterexample. Page 2 comes back empty, so the cursor is reset to 1 and page 1
is fetched again; that re-fetch fails, and `loadPosts` returns with `currentPage = 1`
although it was entered with `currentPage = 2`. -/
theorem refetch_failure_moves_cursor :
    feedAtPage2.currentPage = 2 ∧
      fetchE621Posts sampleEngine
          (netWrapFail feedAtPage2.sent.length
            (mkRequest (orFemale feedAtPage2.currentTags) feedAtPage2.currentPage))
        = .ok [] ∧
      fetchE621Posts sampleEngine
          (netWrapFail (feedAtPage2.sent.length + 1)
            (mkRequest (orFemale feedAtPage2.currentTags) 1))
        = .error connectivityMessage ∧
      (loadPosts sampleEngine netWrapFail feedAtPage2).1.currentPage = 1 :=
  ⟨rfl, rfl, rfl, rfl⟩

/-- C4, amended. In an execution of `loadPosts` in which a fetch fails, `posts` is at
return what it was at entry; `currentPage` is what it was at entry when the fetch of
the current page fails, and is 1 when the re-fetch issued by the wraparound branch
fails. -/
theorem loadPosts_fetch_failure (eng : Engine) (net : Network) (s : Feed)
    (hidle : s.isLoading = false) :
    (∀ m, fetchE621Posts eng
        (net s.sent.length (mkRequest (orFemale s.currentTags) s.currentPage)) = .error m →
      (loadPosts eng net s).1.posts = s.posts ∧
        (loadPosts eng net s).1.currentPage = s.currentPage) ∧
    (∀ m, fetchE621Posts eng
        (net s.sent.length (mkRequest (orFemale s.currentTags) s.currentPage)) = .ok [] →
      s.currentPage > 1 →
      fetchE621Posts eng
        (net (s.sent.length + 1) (mkRequest (orFemale s.currentTags) 1)) = .error m →
      (loadPosts eng net s).1.posts = s.posts ∧
        (loadPosts eng net s).1.currentPage = 1) := by
  constructor
  · intro m h1
    rw [loadPosts_cases eng net s hidle, h1]
    exact ⟨rfl, rfl⟩
  · intro m h1 hpage h2
    rw [loadPosts_cases eng net s hidle, h1]
    simp only [if_pos hpage, h2]
    exact ⟨trivial, trivial⟩

/-- Witness of the amended C4: the network is down, or it fails on the re-fetch. -/
theorem loadPosts_fetch_failure_witness :
    ((loadPosts sampleEngine netDown feedAtPage2).1.posts = feedAtPage2.posts ∧
        (loadPosts sampleEngine netDown feedAtPage2).1.currentPage = 2) ∧
      ((loadPosts sampleEngine netWrapFail feedAtPage2).1.posts = feedAtPage2.posts ∧
        (loadPosts sampleEngine netWrapFail feedAtPage2).1.currentPage = 1) :=
  ⟨(loadPosts_fetch_failure sampleEngine netDown feedAtPage2 rfl).1 connectivityMessage rfl,
    (loadPosts_fetch_failure sampleEngine netWrapFail feedAtPage2 rfl).2
      connectivityMessage rfl (by decide) rfl⟩

/-- C5 (mutual exclusion of `loadMorePosts`). While `isLoading` is true,
`loadMorePosts` returns at its guard: the state, the dispatch log included, is
unchanged, and the scroll trigger starts no execution in the interleaved model. -/
theorem loadMorePosts_noop_while_loading (eng : Engine) (net : Network) (s : Feed)
    (hbusy : s.isLoading = true) :
    loadMorePosts eng net s = (s, .ok ()) ∧
      (loadMorePosts eng net s).1.sent = s.sent ∧
      ∀ inflight, Sys.step eng { feed := s, inflight := inflight } .scroll
        = { feed := s, inflight := inflight } := by
  refine ⟨?_, ?_, ?_⟩
  · simp [loadMorePosts, hbusy]
  · simp [loadMorePosts, hbusy]
  · intro inflight
    simp [Sys.step, hbusy]

/-- Witness of C5: the state of the controller right after construction, while the
initial fetch is outstanding. -/
theorem loadMorePosts_noop_while_loading_witness :
    loadMorePosts sampleEngine netFeed boot.feed = (boot.feed, .ok ()) :=
  (loadMorePosts_noop_while_loading sampleEngine netFeed boot.feed rfl).1

/-- C6 (guaranteed release). Entered with `isLoading` false, `loadPosts` returns
normally, whatever the outcome of its fetches, and leaves `isLoading` false. -/
theorem loadPosts_releases (eng : Engine) (net : Network) (s : Feed)
    (hidle : s.isLoading = false) :
    (loadPosts eng net s).2 = .ok () ∧ (loadPosts eng net s).1.isLoading = false := by
  rw [loadPosts_cases eng net s hidle]
  refine ⟨rfl, ?_⟩
  dsimp only
  split
  · exact hidle
  · split
    · split <;> exact hidle
    · exact hidle
  · exact hidle

/-- Witness of C6: every fetch fails with HTTP 500. -/
theorem loadPosts_releases_witness :
    (loadPosts sampleEngine netDown feedAtPage2).2 = .ok () ∧
      (loadPosts sampleEngine netDown feedAtPage2).1.isLoading = false :=
  loadPosts_releases sampleEngine netDown feedAtPage2 rfl

/-- A search submit with new tags, run to completion: the tags are the new ones, the
cursor is at 1 and exactly one request, for page 1 of the new tags, was dispatched. -/
theorem handleSearch_new_tags (eng : Engine) (net : Network) (value : String) (s : Feed)
    (hnew : jsTrim value ≠ s.currentTags) :
    (handleSearch eng net value s).1.currentTags = jsTrim value ∧
      (handleSearch eng net value s).1.currentPage = 1 ∧
      (handleSearch eng net value s).1.sent
        = s.sent ++ [mkRequest (orFemale (jsTrim value)) 1] := by
  simp only [handleSearch, if_neg hnew]
  rw [loadPosts_cases eng net _ rfl]
  dsimp only
  split
  · exact ⟨rfl, rfl, rfl⟩
  · rw [if_neg (by decide)]
    exact ⟨rfl, rfl, rfl⟩
  · exact ⟨rfl, rfl, rfl⟩

/-- C7 (idempotence of the search submit). When the tags read from the input box (the
trimmed value) equal `currentTags`, `handleSearch` changes nothing and dispatches
nothing. Consequently a second submit of the same input right after the first is a
no-op, and when the tags were new the two submits together reset the query once and
dispatch exactly one request. -/
theorem handleSearch_idempotent (eng : Engine) (net : Network) (value : String)
    (s : Feed) :
    (jsTrim value = s.currentTags → handleSearch eng net value s = (s, .ok ())) ∧
      handleSearch eng net value (handleSearch eng net value s).1
        = ((handleSearch eng net value s).1, .ok ()) ∧
      (jsTrim value ≠ s.currentTags →
        (handleSearch eng net value (handleSearch eng net value s).1).1.currentTags
            = jsTrim value ∧
          (handleSearch eng net value (handleSearch eng net value s).1).1.currentPage = 1 ∧
          (handleSearch eng net value (handleSearch eng net value s).1).1.sent
            = s.sent ++ [mkRequest (orFemale (jsTrim value)) 1]) := by
  have hsame : ∀ t : Feed, jsTrim value = t.currentTags →
      handleSearch eng net value t = (t, .ok ()) := by
    intro t ht
    simp only [handleSearch, if_pos ht]
  have htags : jsTrim value = (handleSearch eng net value s).1.currentTags := by
    by_cases h : jsTrim value = s.currentTags
    · rw [hsame s h]
      exact h
    · exact (handleSearch_new_tags eng net value s h).1.symm
  refine ⟨hsame s, hsame _ htags, ?_⟩
  intro hnew
  rw [hsame _ htags]
  exact handleSearch_new_tags eng net value s hnew

/-- Witness of C7: the controller shows `female`; submitting `" female "` changes
nothing, and submitting `"cat"` twice dispatches one request. -/
theorem handleSearch_idempotent_witness :
    handleSearch sampleEngine netFeed " female " feedAtPage2 = (feedAtPage2, .ok ()) ∧
      (handleSearch sampleEngine netFeed "cat"
          (handleSearch sampleEngine netFeed "cat" feedAtPage2).1).1.sent
        = [mkRequest "cat" 1] :=
  ⟨(handleSearch_idempotent sampleEngine netFeed " female " feedAtPage2).1 rfl,
    ((handleSearch_idempotent sampleEngine netFeed "cat" feedAtPage2).2.2
      (by decide)).2.2⟩

/-! ## The normalizer -/

/-- On records that are neither `null` nor `undefined` the `map` call does not raise
and returns the images of the records in order. -/
theorem mapRecords_ok (eng : Engine) (raws : List JSVal)
    (h : ∀ r ∈ raws, r.isNullish = false) :
    mapRecords eng raws = .ok (raws.map normalizeRecord) := by
  induction raws with
  | nil => rfl
  | cons r rs ih =>
    have hr : r.isNullish = false := h r (List.mem_cons_self _ _)
    have hrs : ∀ x ∈ rs, x.isNullish = false := fun x hx => h x (List.mem_cons_of_mem _ hx)
    simp [mapRecords, mapRecord, hr, ih hrs]

/-- On a record whose `file.url` is absent, `null` or a string, the test of the
`filter` callback is the test "present and non-empty". -/
theorem truthy_url_eq (r : JSVal) (h : urlIsText r = true) :
    (normalizeRecord r).file.url.truthy = hasMediaUrl r := by
  have hfile : (normalizeRecord r).file.url = fileUrl r := rfl
  rw [hfile]
  unfold urlIsText at h
  unfold hasMediaUrl
  cases hu : fileUrl r <;> simp [hu, JSVal.truthy] at h ⊢

/-- Without any assumption on the type of `file.url`: on records that are neither
`null` nor `undefined`, the normalizing step keeps, in order, the images of the records
whose `file.url` is truthy. -/
theorem normalizePosts_truthy (eng : Engine) (raws : List JSVal)
    (h : ∀ r ∈ raws, r.isNullish = false) :
    normalizePosts eng raws
      = .ok ((raws.filter fun r => (fileUrl r).truthy).map normalizeRecord) := by
  unfold normalizePosts
  rw [mapRecords_ok eng raws h]
  simp only [List.filter_map]
  rfl

/-- A record with a media URL is an object: it is neither `null` nor `undefined`. -/
theorem not_nullish_of_hasMediaUrl (r : JSVal) (h : hasMediaUrl r = true) :
    r.isNullish = false := by
  cases r <;> first | rfl | simp [hasMediaUrl, fileUrl, JSVal.get, JSVal.getOpt, JSVal.isNullish] at h

/-- C8 (the normalizer is an order-preserving filter). On a list of raw records (values
other than `null` and `undefined` whose `file.url` is absent, `null` or a string), the
normalizing step returns, without raising, the normalized images of exactly the records
whose `file.url` is present and non-empty, in the order of the input: the kept records
are a sublist of the input, the output is no longer than the input, and every post of
the output carries a non-empty URL. -/
theorem normalizePosts_filter (eng : Engine) (raws : List JSVal)
    (hwf : ∀ r ∈ raws, r.isNullish = false ∧ urlIsText r = true) :
    normalizePosts eng raws = .ok ((raws.filter hasMediaUrl).map normalizeRecord) ∧
      (raws.filter hasMediaUrl).Sublist raws ∧
      ((raws.filter hasMediaUrl).map normalizeRecord).length ≤ raws.length ∧
      ∀ p ∈ (raws.filter hasMediaUrl).map normalizeRecord,
        ∃ u, p.file.url = .str u ∧ u ≠ "" := by
  refine ⟨?_, List.filter_sublist _, ?_, ?_⟩
  · rw [normalizePosts_truthy eng raws (fun r hr => (hwf r hr).1)]
    congr 2
    apply List.filter_congr
    intro r hr
    exact truthy_url_eq r (hwf r hr).2
  · rw [List.length_map]
    exact List.length_filter_le _ _
  · intro p hp
    obtain ⟨r, hr, rfl⟩ := List.mem_map.mp hp
    have hkeep : hasMediaUrl r = true := (List.mem_filter.mp hr).2
    have hfile : (normalizeRecord r).file.url = fileUrl r := rfl
    rw [hfile]
    unfold hasMediaUrl at hkeep
    cases hu : fileUrl r <;> simp [hu] at hkeep
    exact ⟨_, rfl, hkeep⟩

/-- Witness of C8: of four records, the one without `file` and the one whose `file.url`
is `null` are dropped, and `A`, `B` keep their order. -/
theorem normalizePosts_filter_witness :
    normalizePosts sampleEngine [rawA, rawNoFile, rawB, rawNullUrl] = .ok [postA, postB] :=
  (normalizePosts_filter sampleEngine [rawA, rawNoFile, rawB, rawNullUrl]
    (by
      intro r hr
      simp only [List.mem_cons, List.mem_singleton, List.not_mem_nil, or_false] at hr
      rcases hr with h | h | h | h <;> subst h <;> exact ⟨rfl, rfl⟩)).1

/-- C9, counterexample. The record `rawPng` has a valid `file.url`, no `tags`, `score`
or `preview` and none of the optional scalars, yet its normalized `file.ext` is the
record's own `"png"`, not `"jpg"`. -/
theorem sparse_record_keeps_own_ext :
    isSparse rawPng = true ∧
      (normalizeRecord rawPng).file.ext = .str "png" ∧
      (normalizeRecord rawPng).file.ext ≠ .str "jpg" := by
  refine ⟨rfl, rfl, ?_⟩
  intro h
  have h2 : JSVal.str "png" = JSVal.str "jpg" := h
  injection h2 with h3
  exact absurd h3 (by decide)

/-- C9, amended. A raw record with a valid `file.url` whose `tags`, `score` and
`preview` are absent or `null`, whose `fav_count`, `comment_count`, `rating`,
`description` and `uploader_name` are absent, and whose `file.ext` is absent or `null`,
is normalized without failure and kept by the filter; its four tag sequences are
empty, its score fields, `fav_count` and `comment_count` are 0, its `file.ext` is
`"jpg"`, its rating `"s"`, its description `""` and its uploader name `"Anonymous"`. -/
theorem normalize_sparse_record (eng : Engine) (r : JSVal) (hs : isSparse r = true)
    (hext : ((r.get "file").getOpt "ext").isNullish = true) :
    mapRecord eng r = .ok (normalizeRecord r) ∧
      normalizePosts eng [r] = .ok [normalizeRecord r] ∧
      (normalizeRecord r).tags.general = .arr [] ∧
      (normalizeRecord r).tags.species = .arr [] ∧
      (normalizeRecord r).tags.character = .arr [] ∧
      (normalizeRecord r).tags.artist = .arr [] ∧
      (normalizeRecord r).score.up = .num 0 ∧
      (normalizeRecord r).score.down = .num 0 ∧
      (normalizeRecord r).score.total = .num 0 ∧
      (normalizeRecord r).fav_count = .num 0 ∧
      (normalizeRecord r).comment_count = .num 0 ∧
      (normalizeRecord r).file.ext = .str "jpg" ∧
      (normalizeRecord r).rating = .str "s" ∧
      (normalizeRecord r).description = .str "" ∧
      (normalizeRecord r).uploader_name = .str "Anonymous" := by
  simp only [isSparse, Bool.and_eq_true] at hs
  obtain ⟨⟨⟨⟨⟨⟨⟨⟨hurl, htags⟩, hscore⟩, _⟩, hfav⟩, hcom⟩, hrat⟩, hdesc⟩, hname⟩ := hs
  have hobj : r.isNullish = false := not_nullish_of_hasMediaUrl r hurl
  have habs : ∀ key, absent r key = true → r.get key = .undefined := by
    intro key hk
    unfold absent at hk
    cases hg : r.get key <;> simp [hg] at hk
    rfl
  have hnull : ∀ v : JSVal, v.isNullish = true → v.truthy = false := by
    intro v hv
    cases v <;> first | rfl | simp [JSVal.isNullish] at hv
  have htruthy : (normalizeRecord r).file.url.truthy = true := by
    have hfile : (normalizeRecord r).file.url = fileUrl r := rfl
    rw [hfile]
    unfold hasMediaUrl at hurl
    cases hu : fileUrl r <;> simp [hu] at hurl
    simpa [JSVal.truthy] using hurl
  refine ⟨?_, ?_, ?_, ?_, ?_, ?_, ?_, ?_, ?_, ?_, ?_, ?_, ?_, ?_, ?_⟩
  · simp [mapRecord, hobj]
  · simp [normalizePosts, mapRecords, mapRecord, hobj, htruthy]
  · simp [normalizeRecord, JSVal.getOpt, JSVal.orElse, JSVal.truthy, htags]
  · simp [normalizeRecord, JSVal.getOpt, JSVal.orElse, JSVal.truthy, htags]
  · simp [normalizeRecord, JSVal.getOpt, JSVal.orElse, JSVal.truthy, htags]
  · simp [normalizeRecord, JSVal.getOpt, JSVal.orElse, JSVal.truthy, htags]
  · simp [normalizeRecord, JSVal.getOpt, JSVal.orElse, JSVal.truthy, hscore]
  · simp [normalizeRecord, JSVal.getOpt, JSVal.orElse, JSVal.truthy, hscore]
  · simp [normalizeRecord, JSVal.getOpt, JSVal.orElse, JSVal.truthy, hscore]
  · simp [normalizeRecord, JSVal.orElse, JSVal.truthy, habs _ hfav]
  · simp [normalizeRecord, JSVal.orElse, JSVal.truthy, habs _ hcom]
  · simp [normalizeRecord, JSVal.orElse, hnull _ hext]
  · simp [normalizeRecord, JSVal.orElse, JSVal.truthy, habs _ hrat]
  · simp [normalizeRecord, JSVal.orElse, JSVal.truthy, habs _ hdesc]
  · simp [normalizeRecord, JSVal.orElse, JSVal.truthy, habs _ hname]

/-- Witness of the amended C9: the record `A` has an id and a media URL and nothing
else. -/
theorem normalize_sparse_record_witness :
    mapRecord sampleEngine rawA = .ok postA ∧
      postA.tags.general = .arr [] ∧ postA.score.total = .num 0 ∧
      postA.file.ext = .str "jpg" :=
  have h := normalize_sparse_record sampleEngine rawA rfl rfl
  ⟨h.1, h.2.2.1, h.2.2.2.2.2.2.2.2.1, h.2.2.2.2.2.2.2.2.2.2.2.1⟩

/-! ## The failure messages of `fetchE621Posts` -/

/-- A list of characters begins with each of its initial segments. -/
theorem startsWithChars_append (p r : List Char) : startsWithChars (p ++ r) p = true := by
  induction p with
  | nil => cases r <;> rfl
  | cons c cs ih => simp [startsWithChars, ih]

/-- A list of characters includes each of its initial segments. -/
theorem includesChars_append (p r : List Char) : includesChars (p ++ r) p = true := by
  cases h : p ++ r with
  | nil =>
    have hp : p = [] := (List.append_eq_nil.mp h).1
    simp [includesChars, hp]
  | cons c cs =>
    have hs := startsWithChars_append p r
    rw [h] at hs
    simp [includesChars, hs]

/-- The error thrown at line 308 is classified as a connectivity failure, whatever the
status. -/
theorem classify_http (status : Nat) :
    classify (httpErrorMessage status) = connectivityMessage := by
  have h : (httpErrorMessage status).data
      = "HTTP error".data ++ ("! status: ".data ++ (toString status).data) := by
    unfold httpErrorMessage
    rw [String.data_append]
    rfl
  unfold classify includes
  rw [h, includesChars_append]
  rfl

/-- The error thrown at line 352 is classified as a format failure. -/
theorem classify_invalid : classify invalidFormatMessage = formatMessage := by
  decide

/-- C10, counterexample. An envelope that is not parseable JSON, and an envelope whose
`contents` is not parseable JSON, both make `fetchE621Posts` fail with the generic
message, which is not the format message. -/
theorem unparseable_payload_is_generic :
    fetchE621Posts sampleEngine (.http 200 (.error "Unexpected end of JSON input"))
        = .error genericMessage ∧
      sampleEngine.jsonParse (.str "<html>") = .error "Unexpected token in JSON" ∧
      fetchE621Posts sampleEngine (relayOk "<html>") = .error genericMessage ∧
      genericMessage ≠ formatMessage :=
  ⟨rfl, rfl, rfl, by decide⟩

/-- C10, amended. `fetchE621Posts` fails with the connectivity message when the HTTP
status is not 2xx, and with the format message when both decodings succeed and the
decoded payload is falsy or its `posts` field is missing or falsy. When the envelope
or its `contents` is not parseable JSON, or `posts` is present but not an array, the
message is chosen by the text of the error the engine raised, and is the generic
message when that text contains neither `HTTP error` nor `Invalid API response`. The
three messages are pairwise distinct. -/
theorem fetch_failure_kinds (eng : Engine) :
    (∀ status json, statusOk status = false →
      fetchE621Posts eng (.http status json) = .error connectivityMessage) ∧
    (∀ status data e, statusOk status = true → data.isNullish = false →
      eng.jsonParse (data.get "contents") = .ok e →
      (e.truthy = false ∨ (e.get "posts").truthy = false) →
      fetchE621Posts eng (.http status (.ok data)) = .error formatMessage) ∧
    (∀ status m, statusOk status = true →
      fetchE621Posts eng (.http status (.error m)) = .error (classify m)) ∧
    (∀ status data m, statusOk status = true → data.isNullish = false →
      eng.jsonParse (data.get "contents") = .error m →
      fetchE621Posts eng (.http status (.ok data)) = .error (classify m)) ∧
    (∀ status data e, statusOk status = true → data.isNullish = false →
      eng.jsonParse (data.get "contents") = .ok e →
      e.truthy = true → (e.get "posts").truthy = true →
      (∀ raws, e.get "posts" ≠ .arr raws) →
      fetchE621Posts eng (.http status (.ok data)) = .error (classify eng.notFunctionMsg)) ∧
    (∀ m, includes m "HTTP error" = false → includes m "Invalid API response" = false →
      classify m = genericMessage) ∧
    connectivityMessage ≠ formatMessage ∧ connectivityMessage ≠ genericMessage ∧
      formatMessage ≠ genericMessage := by
  refine ⟨?_, ?_, ?_, ?_, ?_, ?_, by decide, by decide, by decide⟩
  · intro status json hs
    simp only [fetchE621Posts, fetchTry, hs, Bool.not_false, if_true, classify_http]
  · intro status data e hs hd hp he
    have hcond : (e.truthy && (e.get "posts").truthy) = false := by
      rcases he with h | h <;> simp [h]
    simp only [fetchE621Posts, fetchTry, hs, hd, hp, hcond, Bool.not_true,
      Bool.false_eq_true, if_false, classify_invalid]
  · intro status m hs
    simp only [fetchE621Posts, fetchTry, hs, Bool.not_true, Bool.false_eq_true, if_false]
  · intro status data m hs hd hp
    simp only [fetchE621Posts, fetchTry, hs, hd, hp, Bool.not_true, Bool.false_eq_true,
      if_false]
  · intro status data e hs hd hp h1 h2 hna
    simp only [fetchE621Posts, fetchTry, hs, hd, hp, h1, h2, Bool.not_true,
      Bool.false_eq_true, if_false, Bool.and_self, if_true]
  · intro m h1 h2
    simp [classify, h1, h2]

/-- Witness of the amended C10: a 500 response gives the connectivity message, and a
payload that decodes to `null` gives the format message. -/
theorem fetch_failure_kinds_witness :
    fetchE621Posts sampleEngine (.http 500 (.error "Unexpected token"))
        = .error connectivityMessage ∧
      fetchE621Posts sampleEngine (relayOk "null") = .error formatMessage :=
  ⟨(fetch_failure_kinds sampleEngine).1 500 (.error "Unexpected token") rfl,
    (fetch_failure_kinds sampleEngine).2.1 200 (obj [("contents", str "null")]) null
      rfl rfl rfl (Or.inl rfl)⟩

/-! ## The session and the favorites calls -/

/-- C11 (auth gate). While `isAuthenticated` is false, `addToFavorites` and
`removeFromFavorites` each return `false` and leave the whole state unchanged: no
request is dispatched and the session fields keep their values. -/
theorem favorites_auth_gate (net : Network) (postId : String) (s : Feed)
    (hanon : s.isAuthenticated = false) :
    addToFavorites net postId s = (s, false) ∧
      removeFromFavorites net postId s = (s, false) ∧
      (addToFavorites net postId s).1.sent = s.sent ∧
      (removeFromFavorites net postId s).1.sent = s.sent := by
  simp [addToFavorites, removeFromFavorites, hanon]

/-- Witness of C11: a fresh controller has no session. -/
theorem favorites_auth_gate_witness :
    addToFavorites (netStatus 200) "12" fresh = (fresh, false) ∧
      removeFromFavorites (netStatus 200) "12" fresh = (fresh, false) :=
  have h := favorites_auth_gate (netStatus 200) "12" fresh rfl
  ⟨h.1, h.2.1⟩

/-- C12 (401 handling). In an authenticated state whose favorites request is issued,
when the response has status 401 the call returns `false` and the session is cleared:
`isAuthenticated` is false, `username` and `apiKey` are `null` and the persisted
`e621_auth` record is removed. This holds for `addToFavorites` and for
`removeFromFavorites`. -/
theorem favorites_401_clears_session (net : Network) (postId : String) (s : Feed)
    (hauth : s.isAuthenticated = true) (hcred : btoaRaises (credentials s) = false) :
    (∀ json, net s.sent.length (.postFavorite postId s.username s.apiKey)
        = .http 401 json →
      (addToFavorites net postId s).2 = false ∧
        (addToFavorites net postId s).1.isAuthenticated = false ∧
        (addToFavorites net postId s).1.username = none ∧
        (addToFavorites net postId s).1.apiKey = none ∧
        (addToFavorites net postId s).1.savedAuth = none) ∧
    (∀ json, net s.sent.length (.deleteFavorite postId s.username s.apiKey)
        = .http 401 json →
      (removeFromFavorites net postId s).2 = false ∧
        (removeFromFavorites net postId s).1.isAuthenticated = false ∧
        (removeFromFavorites net postId s).1.username = none ∧
        (removeFromFavorites net postId s).1.apiKey = none ∧
        (removeFromFavorites net postId s).1.savedAuth = none) := by
  have h401 : statusOk 401 = false := by decide
  constructor
  · intro json hresp
    simp [addToFavorites, hauth, hcred, hresp, h401, logout]
  · intro json hresp
    simp [removeFromFavorites, hauth, hcred, hresp, h401, logout]

/-- Witness of C12: a logged-in user whose request is answered with 401. -/
theorem favorites_401_clears_session_witness :
    (addToFavorites (netStatus 401) "12" feedLoggedIn).2 = false ∧
      (addToFavorites (netStatus 401) "12" feedLoggedIn).1.isAuthenticated = false ∧
      (removeFromFavorites (netStatus 401) "12" feedLoggedIn).1.savedAuth = none :=
  have h := favorites_401_clears_session (netStatus 401) "12" feedLoggedIn rfl rfl
  ⟨(h.1 _ rfl).1, (h.1 _ rfl).2.1, (h.2 _ rfl).2.2.2.2⟩

/-- C13 (idempotent delete). In an authenticated state whose delete request is issued,
`removeFromFavorites` returns `true` when the response has status 404, as it does for
every 2xx status, and in both cases the session (`isAuthenticated`, `username`,
`apiKey`, the persisted record) is unchanged. -/
theorem removeFromFavorites_404_is_success (net : Network) (postId : String) (s : Feed)
    (hauth : s.isAuthenticated = true) (hcred : btoaRaises (credentials s) = false) :
    ∀ status json,
      net s.sent.length (.deleteFavorite postId s.username s.apiKey)
        = .http status json →
      status = 404 ∨ statusOk status = true →
      (removeFromFavorites net postId s).2 = true ∧
        (removeFromFavorites net postId s).1.isAuthenticated = s.isAuthenticated ∧
        (removeFromFavorites net postId s).1.username = s.username ∧
        (removeFromFavorites net postId s).1.apiKey = s.apiKey ∧
        (removeFromFavorites net postId s).1.savedAuth = s.savedAuth := by
  intro status json hresp hstatus
  rcases hstatus with h404 | hok
  · subst h404
    have hnot : statusOk 404 = false := by decide
    simp [removeFromFavorites, hauth, hcred, hresp, hnot]
  · simp [removeFromFavorites, hauth, hcred, hresp, hok]

/-- Witness of C13: a delete answered with 404 and a delete answered with 204. -/
theorem removeFromFavorites_404_is_success_witness :
    (removeFromFavorites (netStatus 404) "12" feedLoggedIn).2 = true ∧
      (removeFromFavorites (netStatus 204) "12" feedLoggedIn).2 = true ∧
      (removeFromFavorites (netStatus 404) "12" feedLoggedIn).1.isAuthenticated = true :=
  ⟨(removeFromFavorites_404_is_success (netStatus 404) "12" feedLoggedIn rfl rfl
      404 _ rfl (Or.inl rfl)).1,
    (removeFromFavorites_404_is_success (netStatus 204) "12" feedLoggedIn rfl rfl
      204 _ rfl (Or.inr rfl)).1,
    (removeFromFavorites_404_is_success (netStatus 404) "12" feedLoggedIn rfl rfl
      404 _ rfl (Or.inl rfl)).2.1⟩

/-- C14, counterexample. A username of three spaces is not empty and the key has
length 20, yet `authenticateUser` returns `false` and stores nothing. -/
theorem blank_username_is_rejected :
    "   " ≠ "" ∧ jsLength "abcdefghijklmnopqrst" = 20 ∧
      authenticateUser "   " "abcdefghijklmnopqrst" fresh = (fresh, false) :=
  ⟨by decide, by decide, rfl⟩

/-- C14, amended. `authenticateUser` succeeds whenever the username and the key are
non-empty after trimming and the key has length at least 20: it returns `true` and
stores the trimmed values as the session and as the persisted record, with
`isAuthenticated` true. It fails whenever the username or the key is empty or blank,
or the key is shorter than 20: it returns `false` and the whole state (session,
persisted record, dispatch log) is unchanged. No request is dispatched in either
case. -/
theorem authenticateUser_validation (username apiKey : String) (s : Feed) :
    (jsTrim username ≠ "" → jsTrim apiKey ≠ "" → 20 ≤ jsLength apiKey →
      authenticateUser username apiKey s
          = (saveAuth (jsTrim username) (jsTrim apiKey) s, true) ∧
        (authenticateUser username apiKey s).1.isAuthenticated = true ∧
        (authenticateUser username apiKey s).1.username = some (jsTrim username) ∧
        (authenticateUser username apiKey s).1.apiKey = some (jsTrim apiKey) ∧
        (authenticateUser username apiKey s).1.savedAuth
          = some (jsTrim username, jsTrim apiKey) ∧
        (authenticateUser username apiKey s).1.sent = s.sent) ∧
    (username = "" ∨ apiKey = "" ∨ jsTrim username = "" ∨ jsTrim apiKey = "" ∨
        jsLength apiKey < 20 →
      authenticateUser username apiKey s = (s, false)) := by
  have hempty : jsTrim "" = "" := rfl
  constructor
  · intro hu hk hlen
    have hu0 : username ≠ "" := fun h => hu (by rw [h]; exact hempty)
    have hk0 : apiKey ≠ "" := fun h => hk (by rw [h]; exact hempty)
    have hguard : ¬ (username = "" ∨ apiKey = "" ∨ jsTrim username = "" ∨
        jsTrim apiKey = "") := by
      rintro (h | h | h | h)
      · exact hu0 h
      · exact hk0 h
      · exact hu h
      · exact hk h
    have hlong : ¬ jsLength apiKey < 20 := Nat.not_lt.mpr hlen
    have hrun : authenticateUser username apiKey s
        = (saveAuth (jsTrim username) (jsTrim apiKey) s, true) := by
      unfold authenticateUser
      rw [if_neg hguard, if_neg hlong]
    rw [hrun]
    exact ⟨rfl, rfl, rfl, rfl, rfl, rfl⟩
  · intro h
    unfold authenticateUser
    by_cases hguard : username = "" ∨ apiKey = "" ∨ jsTrim username = "" ∨
        jsTrim apiKey = ""
    · rw [if_pos hguard]
    · rw [if_neg hguard]
      have hshort : jsLength apiKey < 20 := by
        rcases h with h | h | h | h | h
        · exact absurd (Or.inl h) hguard
        · exact absurd (Or.inr (Or.inl h)) hguard
        · exact absurd (Or.inr (Or.inr (Or.inl h))) hguard
        · exact absurd (Or.inr (Or.inr (Or.inr h))) hguard
        · exact h
      rw [if_pos hshort]

/-- Witness of the amended C14: a key of length 10 fails, a key of length 20 with the
username `fox` succeeds. -/
theorem authenticateUser_validation_witness :
    authenticateUser "fox" "0123456789" fresh = (fresh, false) ∧
      authenticateUser "fox" "0123456789abcdefghij" fresh = (feedLoggedIn, true) ∧
      feedLoggedIn.isAuthenticated = true :=
  ⟨(authenticateUser_validation "fox" "0123456789" fresh).2
      (Or.inr (Or.inr (Or.inr (Or.inr (by decide))))),
    ((authenticateUser_validation "fox" "0123456789abcdefghij" fresh).1
      (by decide) (by decide) (by decide)).1,
    rfl⟩

/-- C15 (success reported on a transport exception). In an authenticated state, when
the favorites request raises instead of producing a response, `addToFavorites` and
`removeFromFavorites` return `true`, the value they return for a 2xx response, and
leave the session unchanged: a `true` result does not tell that the server accepted
the mutation. -/
theorem favorites_true_on_transport_exception (net : Network) (postId : String)
    (s : Feed) (hauth : s.isAuthenticated = true) :
    (∀ m, net s.sent.length (.postFavorite postId s.username s.apiKey)
        = .networkError m →
      (addToFavorites net postId s).2 = true ∧
        (addToFavorites net postId s).1.isAuthenticated = s.isAuthenticated ∧
        (addToFavorites net postId s).1.username = s.username ∧
        (addToFavorites net postId s).1.apiKey = s.apiKey ∧
        (addToFavorites net postId s).1.savedAuth = s.savedAuth) ∧
    (∀ m, net s.sent.length (.deleteFavorite postId s.username s.apiKey)
        = .networkError m →
      (removeFromFavorites net postId s).2 = true ∧
        (removeFromFavorites net postId s).1.isAuthenticated = s.isAuthenticated ∧
        (removeFromFavorites net postId s).1.username = s.username ∧
        (removeFromFavorites net postId s).1.apiKey = s.apiKey ∧
        (removeFromFavorites net postId s).1.savedAuth = s.savedAuth) ∧
    (∀ status json, statusOk status = true →
      btoaRaises (credentials s) = false →
      net s.sent.length (.postFavorite postId s.username s.apiKey)
        = .http status json →
      (addToFavorites net postId s).2 = true) ∧
    (∀ status json, statusOk status = true →
      btoaRaises (credentials s) = false →
      net s.sent.length (.deleteFavorite postId s.username s.apiKey)
        = .http status json →
      (removeFromFavorites net postId s).2 = true) := by
  refine ⟨?_, ?_, ?_, ?_⟩
  · intro m hresp
    cases hcred : btoaRaises (credentials s) <;>
      simp [addToFavorites, hauth, hcred, hresp]
  · intro m hresp
    cases hcred : btoaRaises (credentials s) <;>
      simp [removeFromFavorites, hauth, hcred, hresp]
  · intro status json hok hcred hresp
    simp [addToFavorites, hauth, hcred, hresp, hok]
  · intro status json hok hcred hresp
    simp [removeFromFavorites, hauth, hcred, hresp, hok]

/-- Witness of C15: the network is unreachable, and both calls report success. -/
theorem favorites_true_on_transport_exception_witness :
    (addToFavorites netUnreachable "12" feedLoggedIn).2 = true ∧
      (removeFromFavorites netUnreachable "12" feedLoggedIn).2 = true ∧
      (addToFavorites netUnreachable "12" feedLoggedIn).1.isAuthenticated = true :=
  have h := favorites_true_on_transport_exception netUnreachable "12" feedLoggedIn rfl
  ⟨(h.1 _ rfl).1, (h.2.1 _ rfl).1, (h.1 _ rfl).2.1⟩

end FeralFlow
